import Mathlib

/-!
Verification of the choice-recording CW20 contract (`src/contract.rs`,
`src/msg.rs`) against its natural-language specification.

The contract is a deterministic state machine with three entry points
(`instantiate`, `execute`, `query`).  We embed each handler as a pure Lean
function over an explicit `State`.  A call's observable result is an
`Outcome`: success, a typed contract error, or a Rust panic (the source
calls `.unwrap()` on fallible results in several places; an `unwrap` on a
failed value aborts the call, which we model with `Outcome.panicked`).

Parts of the repository referenced by `src/contract.rs` but not present
under `src/` (the `ContractError` enum from `error.rs`, the `GAME` map from
`state.rs`) and the external `cw20_base` ledger collaborator are modelled
from the specification; each such definition says so in its doc comment.
-/

namespace Krzyzyk

/-- Modelled from the spec: the repository's `error.rs` is not under `src/`.
Spec §7 lists the error kinds `Unauthorized`, `NotFound`, `StateConflict`,
`InvalidAddress`, plus collaborator-raised ledger errors (zero amount,
supply-cap exceeded) passed through unchanged. -/
inductive ContractError where
  | unauthorized
  | notFound
  | stateConflict
  | invalidAddress
  | invalidZeroAmount
  | cannotExceedCap
  deriving DecidableEq, Repr

/-- The observable result of one call: success with a value, a typed error
returned to the caller, or an aborted call (a Rust panic from `.unwrap()`
on a failed result). -/
inductive Outcome (α : Type) where
  | ok : α → Outcome α
  | err : ContractError → Outcome α
  | panicked : Outcome α
  deriving DecidableEq, Repr

/-- `cw20_base::state::MinterData`: the controller ("minter") identity with
an optional supply cap. -/
structure MinterData where
  minter : String
  cap : Option Nat
  deriving DecidableEq, Repr

/-- `cw20_base::state::TokenInfo` (the spec's `LedgerMetadata`): name,
symbol, decimal precision (`u8`, embedded as `Nat`), total supply
(`Uint128`, embedded as `Nat`) and the optional minter data. -/
structure TokenInfo where
  name : String
  symbol : String
  decimals : Nat
  total_supply : Nat
  mint : Option MinterData
  deriving DecidableEq, Repr

/-- `msg.rs`: `InstantiateMsg`. -/
structure InstantiateMsg where
  name : String
  symbol : String
  decimals : Nat
  deriving DecidableEq, Repr

/-- `msg.rs`: `ExecuteMsg`. -/
inductive ExecuteMsg where
  | chooseOption (address : String) (opt : String)
  | mint (recipient : String) (amount : Nat)
  deriving DecidableEq, Repr

/-- `msg.rs`: `QueryMsg`. -/
inductive QueryMsg where
  | compare (address_one : String) (address_two : String)
  | tokenInfo
  deriving DecidableEq, Repr

/-- `msg.rs`: `CompareResponse`. -/
structure CompareResponse where
  option_addr_one : String
  option_addr_two : String
  deriving DecidableEq, Repr

/-- `cw20::TokenInfoResponse`, returned by the delegated `TokenInfo` query. -/
structure TokenInfoResponse where
  name : String
  symbol : String
  decimals : Nat
  total_supply : Nat
  deriving DecidableEq, Repr

/-- A `cosmwasm_std::Response`, reduced to the part the contract produces:
its list of attributes (key/value pairs). -/
structure Response where
  attributes : List (String × String)
  deriving DecidableEq, Repr

/-- The persistent store.  `contractInfo` is the cw2 version record written
by `set_contract_version`; `tokenInfo` is the `TOKEN_INFO` item; `game` is
the repository's `GAME` map (modelled from the spec: `state.rs` is not
under `src/`; spec §3 describes `ChoiceRecord` as a mapping from a
canonicalized participant address to an arbitrary string value); `balances`
is the collaborator's balance map touched only by mint. -/
structure State where
  contractInfo : Option (String × String)
  tokenInfo : Option TokenInfo
  game : String → Option String
  balances : String → Nat

/-- The empty store, before any call. -/
def initialState : State :=
  { contractInfo := none
    tokenInfo := none
    game := fun _ => none
    balances := fun _ => 0 }

/-- The address-normalization capability provided by the environment
(`deps.api`): the composition `addr_humanize ∘ addr_canonicalize` as one
function, `none` when either stage fails.  The contract composes the two
stages directly, so only the composite is observable. -/
def Api : Type := String → Option String

/-- `contract.rs` line 16. -/
def CONTRACT_NAME : String := "crates.io:krzyzyk"

/-- `env!("CARGO_PKG_VERSION")`; `Cargo.toml` is not under `src/`, and no
claim depends on the value. -/
def CONTRACT_VERSION : String := "0.1.0"

/-- `contract.rs` lines 20–41, `instantiate`: write the cw2 version record,
then build a `TokenInfo` with total supply zero and
`mint = Some {minter := sender, cap := None}` and save it with
`TOKEN_INFO.save`.  `Item::save` writes unconditionally (it overwrites any
existing value), so the handler always succeeds. -/
def instantiate (sender : String) (msg : InstantiateMsg) (s : State) :
    Outcome Response × State :=
  let s1 : State := { s with contractInfo := some (CONTRACT_NAME, CONTRACT_VERSION) }
  let data : TokenInfo :=
    { name := msg.name
      symbol := msg.symbol
      decimals := msg.decimals
      total_supply := 0
      mint := some { minter := sender, cap := none } }
  (Outcome.ok { attributes := [] }, { s1 with tokenInfo := some data })

/-- `contract.rs` lines 74–94, `try_choose_option`: load `TOKEN_INFO`
(`StdError::NotFound` if absent); fail with `Unauthorized` unless a minter
is configured and equals the sender; normalize the target address with two
`.unwrap()` calls (a normalization failure is a panic, not a returned
error); save the option string under the normalized key with `GAME.save`
(an unconditional overwrite); answer with a `saved_option` attribute. -/
def try_choose_option (api : Api) (sender address opt : String) (s : State) :
    Outcome Response × State :=
  match s.tokenInfo with
  | none => (Outcome.err ContractError.notFound, s)
  | some config =>
    match config.mint with
    | none => (Outcome.err ContractError.unauthorized, s)
    | some m =>
      if m.minter ≠ sender then (Outcome.err ContractError.unauthorized, s)
      else
        match api address with
        | none => (Outcome.panicked, s)
        | some key =>
          (Outcome.ok { attributes := [("saved_option", opt)] },
           { s with game := fun k => if k = key then some opt else s.game k })

/-- `contract.rs` lines 96–117, `query_compare`: normalize both addresses
(each normalization failure is an `.unwrap()` panic); `GAME.may_load` each
key (`Ok(None)` when absent); then `.unwrap()` each `Option`, so a missing
entry is a panic, not a returned error. -/
def query_compare (api : Api) (address_one address_two : String) (s : State) :
    Outcome CompareResponse :=
  match api address_one with
  | none => Outcome.panicked
  | some k1 =>
    match api address_two with
    | none => Outcome.panicked
    | some k2 =>
      match s.game k1 with
      | none => Outcome.panicked
      | some o1 =>
        match s.game k2 with
        | none => Outcome.panicked
        | some o2 => Outcome.ok { option_addr_one := o1, option_addr_two := o2 }

/-- Whether a new total supply exceeds an optional cap (no cap: never). -/
def capExceeded (cap : Option Nat) (newSupply : Nat) : Bool :=
  match cap with
  | none => false
  | some limit => decide (limit < newSupply)

/-- Modelled from the spec: `execute_mint` lives in the external `cw20_base`
collaborator, not in this repository.  Spec §4.3/§6: mint increases total
supply and the recipient's balance; it fails if the amount is zero, if no
controller is configured or the caller is not the controller (glossary:
the controller is "the single identity authorized to mint ledger supply"),
or if the new supply would exceed the optional cap. -/
def execute_mint (sender recipient : String) (amount : Nat) (s : State) :
    Outcome Response × State :=
  if amount = 0 then (Outcome.err ContractError.invalidZeroAmount, s)
  else
    match s.tokenInfo with
    | none => (Outcome.err ContractError.notFound, s)
    | some config =>
      match config.mint with
      | none => (Outcome.err ContractError.unauthorized, s)
      | some m =>
        if m.minter ≠ sender then (Outcome.err ContractError.unauthorized, s)
        else
          if capExceeded m.cap (config.total_supply + amount) then
            (Outcome.err ContractError.cannotExceedCap, s)
          else
            (Outcome.ok { attributes := [("action", "mint")] },
             { s with
               tokenInfo :=
                 some { config with total_supply := config.total_supply + amount }
               balances := fun k =>
                 if k = recipient then s.balances k + amount else s.balances k })

/-- Modelled from the spec: `query_token_info` lives in the external
`cw20_base` collaborator.  Spec §4.3: `readMetadata()` returns
name/symbol/decimals/total supply; spec §6: it fails only when the contract
is not initialized. -/
def query_token_info (s : State) : Outcome TokenInfoResponse :=
  match s.tokenInfo with
  | none => Outcome.err ContractError.notFound
  | some c =>
    Outcome.ok
      { name := c.name
        symbol := c.symbol
        decimals := c.decimals
        total_supply := c.total_supply }

/-- `contract.rs` lines 43–58, `execute`: dispatch to `try_choose_option`
or the collaborator's `execute_mint`, returning the handler's result
unchanged. -/
def execute (api : Api) (sender : String) (msg : ExecuteMsg) (s : State) :
    Outcome Response × State :=
  match msg with
  | ExecuteMsg.chooseOption address opt => try_choose_option api sender address opt s
  | ExecuteMsg.mint recipient amount => execute_mint sender recipient amount s

/-- The serialized answer of the `query` entry point, one constructor per
`QueryMsg` arm (we keep the typed value rather than its binary encoding). -/
inductive QueryAnswer where
  | compare : CompareResponse → QueryAnswer
  | token : TokenInfoResponse → QueryAnswer
  deriving DecidableEq, Repr

/-- `contract.rs` lines 60–69, `query`: dispatch to `query_compare` or the
collaborator's `query_token_info` and serialize the answer.  The handler
receives the store read-only (`Deps`), which the embedding shows by
returning the input state unchanged in every branch. -/
def query (api : Api) (msg : QueryMsg) (s : State) : Outcome QueryAnswer × State :=
  match msg with
  | QueryMsg.compare a1 a2 =>
    (match query_compare api a1 a2 s with
     | Outcome.ok r => Outcome.ok (QueryAnswer.compare r)
     | Outcome.err e => Outcome.err e
     | Outcome.panicked => Outcome.panicked, s)
  | QueryMsg.tokenInfo =>
    (match query_token_info s with
     | Outcome.ok r => Outcome.ok (QueryAnswer.token r)
     | Outcome.err e => Outcome.err e
     | Outcome.panicked => Outcome.panicked, s)

/-- One external call: which entry point was invoked, by whom, with what
message. -/
inductive Call where
  | init (sender : String) (msg : InstantiateMsg)
  | exec (sender : String) (msg : ExecuteMsg)
  | qry (msg : QueryMsg)

/-- The store after processing one call: each entry point's resulting
state (the handlers already return the input state unchanged on every
failure, which models the environment's rollback-on-failure guarantee). -/
def applyCall (api : Api) (s : State) (c : Call) : State :=
  match c with
  | Call.init sender msg => (instantiate sender msg s).2
  | Call.exec sender msg => (execute api sender msg s).2
  | Call.qry msg => (query api msg s).2

/-- The store after a sequence of calls, processed one at a time. -/
def runCalls (api : Api) (s : State) (cs : List Call) : State :=
  cs.foldl (applyCall api) s

/-! ## Concrete material for witnesses -/

/-- A concrete normalization function for witnesses: reject the empty
string, return every other string unchanged. -/
def apiW : Api := fun t => if t = "" then none else some t

/-- The instantiate message of the repository's own test. -/
def msgW : InstantiateMsg := { name := "Auto gen", symbol := "AUTO", decimals := 6 }

/-- Store after a successful instantiate by `"creator"`. -/
def sW0 : State := (instantiate "creator" msgW initialState).2

/-- Store after the controller records `"Papier"` for `"alice"`. -/
def sW1 : State := (try_choose_option apiW "creator" "alice" "Papier" sW0).2

/-- Store after the controller additionally records `"Kamien"` for `"bob"`. -/
def sW2 : State := (try_choose_option apiW "creator" "bob" "Kamien" sW1).2

/-- Store after the controller re-records `"Nozyce"` for `"alice"` on top
of the earlier `"Papier"`. -/
def sW1b : State := (try_choose_option apiW "creator" "alice" "Nozyce" sW1).2

/-- A concrete call trace: instantiate, then one authorized choice write. -/
def csW : List Call :=
  [Call.init "creator" msgW,
   Call.exec "creator" (ExecuteMsg.chooseOption "alice" "Papier")]

/-- The cap invariant of claim C10: whenever metadata exists and declares a
minter, that minter's supply cap is `none`. -/
def CapNone (s : State) : Prop :=
  ∀ config m, s.tokenInfo = some config → config.mint = some m → m.cap = none

/-! ## Shared helper lemmas -/

/-- Characterization of a successful `try_choose_option`: the metadata
exists, the caller is the configured minter, the address normalized to some
key, that key now holds the option string verbatim, and nothing else in the
store changed. -/
theorem choose_ok_spec {api : Api} {sender address opt : String} {s s' : State}
    {r : Response}
    (h : try_choose_option api sender address opt s = (Outcome.ok r, s')) :
    ∃ config m key,
      s.tokenInfo = some config ∧ config.mint = some m ∧ m.minter = sender ∧
      api address = some key ∧
      s'.tokenInfo = s.tokenInfo ∧ s'.contractInfo = s.contractInfo ∧
      s'.balances = s.balances ∧
      s'.game key = some opt ∧
      (∀ k, k ≠ key → s'.game k = s.game k) := by
  unfold try_choose_option at h
  split at h
  · exact absurd h (by simp)
  rename_i config hti
  split at h
  · exact absurd h (by simp)
  rename_i m hm
  split at h
  · exact absurd h (by simp)
  rename_i hmint
  split at h
  · exact absurd h (by simp)
  rename_i key ha
  rw [Prod.mk.injEq] at h
  obtain ⟨-, hs'⟩ := h
  subst hs'
  refine ⟨config, m, key, hti, hm, by simpa using hmint, ha, rfl, rfl, rfl, by simp, ?_⟩
  intro k hk
  simp [hk]

/-- A successful compare read back: both addresses normalize and both keys
hold a value, and the response returns the two stored strings verbatim. -/
theorem compare_ok_of_stored {api : Api} {t1 t2 k1 k2 o1 o2 : String} {s : State}
    (h1 : api t1 = some k1) (h2 : api t2 = some k2)
    (g1 : s.game k1 = some o1) (g2 : s.game k2 = some o2) :
    query_compare api t1 t2 s = Outcome.ok ⟨o1, o2⟩ := by
  simp [query_compare, h1, h2, g1, g2]

theorem runCalls_nil (api : Api) (s : State) : runCalls api s [] = s := rfl

theorem runCalls_cons (api : Api) (s : State) (c : Call) (cs : List Call) :
    runCalls api s (c :: cs) = runCalls api (applyCall api s c) cs := rfl

/-- Every run of `try_choose_option` either fails (typed error or panic)
returning the store unchanged, or succeeds. -/
theorem choose_cases (api : Api) (sender address opt : String) (s : State) :
    (∃ e, try_choose_option api sender address opt s = (Outcome.err e, s)) ∨
    try_choose_option api sender address opt s = (Outcome.panicked, s) ∨
    ∃ r s', try_choose_option api sender address opt s = (Outcome.ok r, s') := by
  unfold try_choose_option
  split
  · exact Or.inl ⟨_, rfl⟩
  split
  · exact Or.inl ⟨_, rfl⟩
  split
  · exact Or.inl ⟨_, rfl⟩
  split
  · exact Or.inr (Or.inl rfl)
  · exact Or.inr (Or.inr ⟨_, _, rfl⟩)

/-- `try_choose_option` never touches the metadata item. -/
theorem choose_tokenInfo (api : Api) (sender address opt : String) (s : State) :
    (try_choose_option api sender address opt s).2.tokenInfo = s.tokenInfo := by
  unfold try_choose_option
  split
  · rfl
  split
  · rfl
  split
  · rfl
  split
  · rfl
  · rfl

/-- `execute_mint` never touches the choice mapping. -/
theorem execute_mint_game (sender recipient : String) (amount : Nat) (s : State) :
    (execute_mint sender recipient amount s).2.game = s.game := by
  unfold execute_mint
  split
  · rfl
  split
  · rfl
  split
  · rfl
  split
  · rfl
  split
  · rfl
  · rfl


/-- `execute_mint` either leaves the metadata unchanged or only raises its
total supply, keeping the minter data as it was. -/
theorem execute_mint_tokenInfo (sender recipient : String) (amount : Nat) (s : State) :
    (execute_mint sender recipient amount s).2.tokenInfo = s.tokenInfo ∨
    ∃ config, s.tokenInfo = some config ∧
      (execute_mint sender recipient amount s).2.tokenInfo =
        some { config with total_supply := config.total_supply + amount } := by
  unfold execute_mint
  split
  · exact Or.inl rfl
  split
  · exact Or.inl rfl
  rename_i config hti
  split
  · exact Or.inl rfl
  split
  · exact Or.inl rfl
  split
  · exact Or.inl rfl
  · exact Or.inr ⟨config, hti, rfl⟩

/-- How one call can affect one key of the choice mapping: either the key
is untouched, or the call was a `ChooseOption` that succeeded, its target
normalized to that key, and the key now holds the written option. -/
theorem applyCall_game_cases (api : Api) (s : State) (c : Call) (k : String) :
    (applyCall api s c).game k = s.game k ∨
    ∃ sender address opt r s',
      c = Call.exec sender (ExecuteMsg.chooseOption address opt) ∧
      try_choose_option api sender address opt s = (Outcome.ok r, s') ∧
      api address = some k ∧
      (applyCall api s c).game k = some opt := by
  cases c with
  | init sender msg => exact Or.inl rfl
  | qry msg => cases msg <;> exact Or.inl rfl
  | exec sender msg =>
    cases msg with
    | mint recipient amount =>
      exact Or.inl (congrFun (execute_mint_game sender recipient amount s) k)
    | chooseOption address opt =>
      rcases choose_cases api sender address opt s with ⟨e, he⟩ | hp | ⟨r, s', hok⟩
      · left
        show (try_choose_option api sender address opt s).2.game k = s.game k
        rw [he]
      · left
        show (try_choose_option api sender address opt s).2.game k = s.game k
        rw [hp]
      · obtain ⟨_, _, key, _, _, _, ha, _, _, _, hwr, hother⟩ := choose_ok_spec hok
        by_cases hk : k = key
        · subst hk
          right
          refine ⟨sender, address, opt, r, s', rfl, hok, ha, ?_⟩
          show (try_choose_option api sender address opt s).2.game k = some opt
          rw [hok]
          exact hwr
        · left
          show (try_choose_option api sender address opt s).2.game k = s.game k
          rw [hok]
          exact hother k hk

/-- Every entry of the choice mapping in a state reached from a store where
the key was absent traces back to a successful `ChooseOption` in the call
sequence whose target normalized to that key. -/
theorem game_origin_aux (api : Api) (cs : List Call) :
    ∀ (s : State) (k v : String),
      (runCalls api s cs).game k = some v →
      (∃ v', s.game k = some v') ∨
      ∃ pre sender address opt suf r s',
        cs = pre ++ Call.exec sender (ExecuteMsg.chooseOption address opt) :: suf ∧
        try_choose_option api sender address opt (runCalls api s pre) =
          (Outcome.ok r, s') ∧
        api address = some k := by
  induction cs with
  | nil => intro s k v h; exact Or.inl ⟨v, h⟩
  | cons c cs ih =>
    intro s k v h
    rw [runCalls_cons] at h
    rcases ih (applyCall api s c) k v h with ⟨v', hv'⟩ |
      ⟨pre, sender, address, opt, suf, r, s', hcs, hok, ha⟩
    · rcases applyCall_game_cases api s c k with heq |
        ⟨sender, address, opt, r, s', hc, hok, ha, _⟩
      · rw [heq] at hv'
        exact Or.inl ⟨v', hv'⟩
      · right
        exact ⟨[], sender, address, opt, cs, r, s',
          by rw [hc]; rfl, hok, ha⟩
    · right
      exact ⟨c :: pre, sender, address, opt, suf, r, s',
        by rw [hcs]; rfl, hok, ha⟩

/-- The cap invariant holds initially and is preserved by every call. -/
theorem capNone_step (api : Api) (s : State) (c : Call) (h : CapNone s) :
    CapNone (applyCall api s c) := by
  cases c with
  | init sender msg =>
    intro config m hti hm
    simp only [applyCall, instantiate] at hti
    injection hti with hc
    rw [← hc] at hm
    injection hm with hm
    rw [← hm]
  | qry msg =>
    cases msg <;> exact h
  | exec sender msg =>
    cases msg with
    | chooseOption address opt =>
      intro config m hti hm
      rw [show (applyCall api s (Call.exec sender (ExecuteMsg.chooseOption address opt))).tokenInfo = (try_choose_option api sender address opt s).2.tokenInfo from rfl,
        choose_tokenInfo] at hti
      exact h config m hti hm
    | mint recipient amount =>
      intro config m hti hm
      rcases execute_mint_tokenInfo sender recipient amount s with heq | ⟨config0, hti0, heq⟩
      · rw [show (applyCall api s (Call.exec sender (ExecuteMsg.mint recipient amount))).tokenInfo = (execute_mint sender recipient amount s).2.tokenInfo from rfl,
          heq] at hti
        exact h config m hti hm
      · rw [show (applyCall api s (Call.exec sender (ExecuteMsg.mint recipient amount))).tokenInfo = (execute_mint sender recipient amount s).2.tokenInfo from rfl,
          heq] at hti
        injection hti with hc
        rw [← hc] at hm
        exact h config0 m hti0 hm

/-- The cap invariant holds in every reachable state. -/
theorem capNone_run (api : Api) (cs : List Call) :
    ∀ s : State, CapNone s → CapNone (runCalls api s cs) := by
  induction cs with
  | nil => intro s h; exact h
  | cons c cs ih =>
    intro s h
    rw [runCalls_cons]
    exact ih (applyCall api s c) (capNone_step api s c h)

/-- Under the cap invariant, mint can never fail with the cap-exceeded
error. -/
theorem mint_no_cap_error (sender recipient : String) (amount : Nat) (s : State)
    (h : CapNone s) :
    (execute_mint sender recipient amount s).1 ≠
      Outcome.err ContractError.cannotExceedCap := by
  unfold execute_mint
  split
  · simp
  split
  · simp
  rename_i config hti
  split
  · simp
  rename_i m hm
  split
  · simp
  have hcap : m.cap = none := h config m hti hm
  rw [hcap]
  simp [capExceeded]

/-! ## Claim theorems -/

/-- Claim C1: after a controller-authorized `ChooseOption` for address `A`
with value `choice` succeeds, the address normalized to some key, that key
holds `choice` verbatim, and every `Compare` whose arguments include any
textual representation of `A` (any `t` normalizing like `A`) returns
exactly `choice` in `A`'s slot of the response, untransformed. -/
theorem choose_then_compare (api : Api) (sender A choice : String) (s s' : State)
    (r : Response)
    (hok : try_choose_option api sender A choice s = (Outcome.ok r, s')) :
    ∃ key, api A = some key ∧ s'.game key = some choice ∧
      ∀ t t2 k2 o2, api t = api A → api t2 = some k2 → s'.game k2 = some o2 →
        query_compare api t t2 s' = Outcome.ok ⟨choice, o2⟩ ∧
        query_compare api t2 t s' = Outcome.ok ⟨o2, choice⟩ := by
  obtain ⟨config, m, key, _, _, _, ha, _, _, _, hwr, _⟩ := choose_ok_spec hok
  refine ⟨key, ha, hwr, ?_⟩
  intro t t2 k2 o2 ht ht2 ho2
  have ht' : api t = some key := by rw [ht, ha]
  exact ⟨compare_ok_of_stored ht' ht2 hwr ho2, compare_ok_of_stored ht2 ht' ho2 hwr⟩

/-- Witness for C1 at a concrete run: instantiate by `"creator"`, record
`"Papier"` for `"alice"`, and read it back through `Compare`. -/
theorem choose_then_compare_witness :
    ∃ key, apiW "alice" = some key ∧ sW1.game key = some "Papier" ∧
      ∀ t t2 k2 o2, apiW t = apiW "alice" → apiW t2 = some k2 →
        sW1.game k2 = some o2 →
        query_compare apiW t t2 sW1 = Outcome.ok ⟨"Papier", o2⟩ ∧
        query_compare apiW t2 t sW1 = Outcome.ok ⟨o2, "Papier"⟩ :=
  choose_then_compare apiW "creator" "alice" "Papier" sW0 sW1
    { attributes := [("saved_option", "Papier")] } (by rfl)

/-- Claim C2: when the stored metadata declares no controller, or the
caller differs from the declared controller, `ChooseOption` fails with
`Unauthorized` and returns the store unchanged, so the prior choice value
or absence for the target address is still observable afterwards. -/
theorem choose_unauthorized (api : Api) (sender address opt : String) (s : State)
    (config : TokenInfo) (hti : s.tokenInfo = some config)
    (hauth : config.mint = none ∨ ∀ m, config.mint = some m → m.minter ≠ sender) :
    try_choose_option api sender address opt s =
      (Outcome.err ContractError.unauthorized, s) := by
  unfold try_choose_option
  rw [hti]
  cases hm : config.mint with
  | none => simp [hm]
  | some m =>
    have hne : m.minter ≠ sender := by
      rcases hauth with h | h
      · rw [h] at hm; exact absurd hm (by simp)
      · exact h m hm
    simp [hm, hne]

/-- Witness for C2 at a concrete run: `"mallory"` is not the configured
controller `"creator"`, so the write is rejected and the store untouched. -/
theorem choose_unauthorized_witness :
    try_choose_option apiW "mallory" "alice" "Papier" sW0 =
      (Outcome.err ContractError.unauthorized, sW0) :=
  choose_unauthorized apiW "mallory" "alice" "Papier" sW0
    { name := "Auto gen", symbol := "AUTO", decimals := 6, total_supply := 0,
      mint := some { minter := "creator", cap := none } }
    (by rfl)
    (Or.inr (fun m hm => by
      injection hm with h
      rw [← h]
      decide))

/-- Claim C7: a successful instantiate on an empty store writes a
`TokenInfo` holding the message's name, symbol and decimals, total supply
zero, and the caller as minter. -/
theorem instantiate_on_empty (sender : String) (msg : InstantiateMsg) (s : State)
    (_hempty : s.tokenInfo = none) :
    (instantiate sender msg s).1 = Outcome.ok { attributes := [] } ∧
    (instantiate sender msg s).2.tokenInfo =
      some { name := msg.name, symbol := msg.symbol, decimals := msg.decimals,
             total_supply := 0, mint := some { minter := sender, cap := none } } :=
  ⟨rfl, rfl⟩

/-- Witness for C7 at the concrete test configuration. -/
theorem instantiate_on_empty_witness :
    (instantiate "creator" msgW initialState).1 = Outcome.ok { attributes := [] } ∧
    (instantiate "creator" msgW initialState).2.tokenInfo =
      some { name := "Auto gen", symbol := "AUTO", decimals := 6,
             total_supply := 0, mint := some { minter := "creator", cap := none } } :=
  instantiate_on_empty "creator" msgW initialState (by rfl)

/-- Claim C6: re-recording a choice for the same address overwrites the
previous value: after authorized writes of `x` then `y` for `A`, `A`'s key
holds `y`, and every `Compare` involving a representation of `A` yields `y`
in `A`'s slot — the last write wins. -/
theorem choose_overwrite (api : Api) (sender A x y : String) (s s1 s2 : State)
    (r1 r2 : Response)
    (hok1 : try_choose_option api sender A x s = (Outcome.ok r1, s1))
    (hok2 : try_choose_option api sender A y s1 = (Outcome.ok r2, s2)) :
    ∃ key, api A = some key ∧ s1.game key = some x ∧ s2.game key = some y ∧
      ∀ t t2 k2 o2, api t = api A → api t2 = some k2 → s2.game k2 = some o2 →
        query_compare api t t2 s2 = Outcome.ok ⟨y, o2⟩ ∧
        query_compare api t2 t s2 = Outcome.ok ⟨o2, y⟩ := by
  obtain ⟨_, _, key1, _, _, _, ha1, _, _, _, hwr1, _⟩ := choose_ok_spec hok1
  obtain ⟨_, _, key, _, _, _, ha, _, _, _, hwr, _⟩ := choose_ok_spec hok2
  rw [ha1] at ha
  injection ha with hk
  rw [hk] at hwr1 ha1
  refine ⟨key, ha1, hwr1, hwr, ?_⟩
  intro t t2 k2 o2 ht ht2 ho2
  have ht' : api t = some key := by rw [ht, ha1]
  exact ⟨compare_ok_of_stored ht' ht2 hwr ho2, compare_ok_of_stored ht2 ht' ho2 hwr⟩

/-- Witness for C6 at a concrete run: `"Papier"` then `"Nozyce"` for
`"alice"`; the surviving value is `"Nozyce"`. -/
theorem choose_overwrite_witness :
    ∃ key, apiW "alice" = some key ∧ sW1.game key = some "Papier" ∧
      sW1b.game key = some "Nozyce" ∧
      ∀ t t2 k2 o2, apiW t = apiW "alice" → apiW t2 = some k2 →
        sW1b.game k2 = some o2 →
        query_compare apiW t t2 sW1b = Outcome.ok ⟨"Nozyce", o2⟩ ∧
        query_compare apiW t2 t sW1b = Outcome.ok ⟨o2, "Nozyce"⟩ :=
  choose_overwrite apiW "creator" "alice" "Papier" "Nozyce" sW0 sW1 sW1b
    { attributes := [("saved_option", "Papier")] }
    { attributes := [("saved_option", "Nozyce")] } (by rfl) (by rfl)

/-- Claim C9: the query entry point never modifies the persistent store —
for every state and query message, whether the inner handler succeeds or
fails, the store after the call equals the store before it. -/
theorem query_preserves_state (api : Api) (msg : QueryMsg) (s : State) :
    (query api msg s).2 = s := by
  cases msg <;> rfl

/-- Counterexample to C4: on the already-initialized store `sW0`, a second
instantiate by `"second"` does not fail with `StateConflict` — it succeeds,
and the stored metadata is replaced (the claim asserted both failure and
preservation). -/
theorem reinstantiate_cex :
    (instantiate "second" msgW sW0).1 ≠ Outcome.err ContractError.stateConflict ∧
    (instantiate "second" msgW sW0).1 = Outcome.ok { attributes := [] } ∧
    (instantiate "second" msgW sW0).2.tokenInfo ≠ sW0.tokenInfo :=
  ⟨by decide, by decide, by decide⟩

/-- Claim C4 (amended): `TOKEN_INFO.save` writes unconditionally, so
calling instantiate when the metadata store already holds a value succeeds
and overwrites the stored `LedgerMetadata` with the new config — controller
becomes the new caller and the total supply resets to zero. -/
theorem instantiate_overwrites (sender : String) (msg : InstantiateMsg) (s : State) :
    (instantiate sender msg s).1 = Outcome.ok { attributes := [] } ∧
    (instantiate sender msg s).2.tokenInfo =
      some { name := msg.name, symbol := msg.symbol, decimals := msg.decimals,
             total_supply := 0, mint := some { minter := sender, cap := none } } :=
  ⟨rfl, rfl⟩

/-- Counterexample to C3: in the freshly instantiated store `sW0` no choice
has ever been recorded, yet `Compare` on two well-formed addresses aborts
with a panic (`Option::unwrap` on `None`) instead of returning a `NotFound`
error to the caller. -/
theorem compare_missing_cex :
    query_compare apiW "alice" "bob" sW0 = Outcome.panicked ∧
    query_compare apiW "alice" "bob" sW0 ≠ Outcome.err ContractError.notFound :=
  ⟨by decide, by decide⟩

/-- Claim C3 (amended): if either address normalizes to a key with no
recorded choice, `Compare` aborts with a panic — it never fabricates a
default value and never succeeds on missing data; but the failure mode is
a panic from `Option::unwrap` on the `may_load` result, not a typed
`NotFound` error returned to the caller. -/
theorem compare_missing_panics (api : Api) (a1 a2 k1 k2 : String) (s : State)
    (h1 : api a1 = some k1) (h2 : api a2 = some k2)
    (hmiss : s.game k1 = none ∨ s.game k2 = none) :
    query_compare api a1 a2 s = Outcome.panicked := by
  unfold query_compare
  rcases hmiss with h | h
  · simp [h1, h2, h]
  · cases hg : s.game k1 with
    | none => simp [h1, h2, hg]
    | some o1 => simp [h1, h2, hg, h]

/-- Witness for the amended C3: `"alice"` holds `"Papier"` in `sW1` but
`"bob"` holds nothing, and the compare panics. -/
theorem compare_missing_panics_witness :
    query_compare apiW "alice" "bob" sW1 = Outcome.panicked :=
  compare_missing_panics apiW "alice" "bob" "alice" "bob" sW1 (by rfl) (by rfl)
    (Or.inr (by decide))

/-- Counterexample to C5: the empty string fails normalization under
`apiW`; a controller-authorized `ChooseOption` for it and a `Compare` on it
both abort with a panic — neither returns an `InvalidAddress` error. -/
theorem invalid_address_cex :
    (try_choose_option apiW "creator" "" "Papier" sW0).1 = Outcome.panicked ∧
    (try_choose_option apiW "creator" "" "Papier" sW0).1 ≠
      Outcome.err ContractError.invalidAddress ∧
    query_compare apiW "" "alice" sW1 = Outcome.panicked ∧
    query_compare apiW "" "alice" sW1 ≠ Outcome.err ContractError.invalidAddress :=
  ⟨by decide, by decide, by decide, by decide⟩

/-- Claim C5 (amended): input text that fails canonical-address
normalization makes the call abort with a panic (the code calls `.unwrap()`
on the normalization result) rather than returning a typed `InvalidAddress`
error; in `ChooseOption` normalization happens only after the authorization
check passes, and the store is left unchanged by the aborted call. -/
theorem invalid_address_panics (api : Api) (sender address opt a2 : String)
    (s : State) (config : TokenInfo) (m : MinterData)
    (hti : s.tokenInfo = some config) (hm : config.mint = some m)
    (hmint : m.minter = sender) (hbad : api address = none) :
    try_choose_option api sender address opt s = (Outcome.panicked, s) ∧
    query_compare api address a2 s = Outcome.panicked := by
  constructor
  · unfold try_choose_option
    rw [hti]
    simp [hm, hmint, hbad]
  · unfold query_compare
    simp [hbad]

/-- Witness for the amended C5: the empty string under `apiW`, with the
authorized controller `"creator"` on the concrete store `sW0`. -/
theorem invalid_address_panics_witness :
    try_choose_option apiW "creator" "" "Papier" sW0 = (Outcome.panicked, sW0) ∧
    query_compare apiW "" "alice" sW0 = Outcome.panicked :=
  invalid_address_panics apiW "creator" "" "Papier" "alice" sW0
    { name := "Auto gen", symbol := "AUTO", decimals := 6, total_supply := 0,
      mint := some { minter := "creator", cap := none } }
    { minter := "creator", cap := none }
    (by rfl) (by rfl) (by rfl) (by rfl)

/-- Claim C8: invariant of the choice mapping over every reachable state.
No call ever deletes an entry (presence of a key is preserved by every
call), and every entry of a state reached from the empty store traces back
to a `ChooseOption` call in the trace that succeeded — at a moment when the
metadata declared the calling identity as minter — and whose target
normalized to that key. -/
theorem game_entries_only_from_authorized_writes (api : Api) (cs : List Call)
    (k v : String)
    (h : (runCalls api initialState cs).game k = some v) :
    (∀ (s : State) (c : Call) (k' v' : String), s.game k' = some v' →
      ∃ v'', (applyCall api s c).game k' = some v'') ∧
    ∃ pre sender address opt suf r s',
      cs = pre ++ Call.exec sender (ExecuteMsg.chooseOption address opt) :: suf ∧
      try_choose_option api sender address opt (runCalls api initialState pre) =
        (Outcome.ok r, s') ∧
      api address = some k ∧
      ∃ config m, (runCalls api initialState pre).tokenInfo = some config ∧
        config.mint = some m ∧ m.minter = sender := by
  constructor
  · intro s c k' v' hk
    rcases applyCall_game_cases api s c k' with heq |
      ⟨_, _, opt', _, _, _, _, _, hg⟩
    · exact ⟨v', by rw [heq, hk]⟩
    · exact ⟨opt', hg⟩
  · rcases game_origin_aux api cs initialState k v h with ⟨v', hv'⟩ |
      ⟨pre, sender, address, opt, suf, r, s', hcs, hok, ha⟩
    · exact absurd hv' (by simp [initialState])
    · obtain ⟨config, m, _, hti, hm, hmint, _, _, _, _, _, _⟩ := choose_ok_spec hok
      exact ⟨pre, sender, address, opt, suf, r, s', hcs, hok, ha,
        config, m, hti, hm, hmint⟩

/-- Witness for C8 on the concrete trace `csW`: the entry `"alice" ↦
"Papier"` traces back to the one authorized write in the trace. -/
theorem game_entries_witness :
    (∀ (s : State) (c : Call) (k' v' : String), s.game k' = some v' →
      ∃ v'', (applyCall apiW s c).game k' = some v'') ∧
    ∃ pre sender address opt suf r s',
      csW = pre ++ Call.exec sender (ExecuteMsg.chooseOption address opt) :: suf ∧
      try_choose_option apiW sender address opt (runCalls apiW initialState pre) =
        (Outcome.ok r, s') ∧
      apiW address = some "alice" ∧
      ∃ config m, (runCalls apiW initialState pre).tokenInfo = some config ∧
        config.mint = some m ∧ m.minter = sender :=
  game_entries_only_from_authorized_writes apiW csW "alice" "Papier" (by rfl)

/-- Claim C10: instantiate always stores the minter with cap `none` and no
operation ever sets a cap, so in every reachable state the metadata's cap
is `none`, and the mint operation can never fail with the cap-exceeded
error there. -/
theorem cap_always_none (api : Api) (cs : List Call) :
    (∀ config m, (runCalls api initialState cs).tokenInfo = some config →
      config.mint = some m → m.cap = none) ∧
    (∀ sender recipient amount,
      (execute api sender (ExecuteMsg.mint recipient amount)
        (runCalls api initialState cs)).1 ≠
        Outcome.err ContractError.cannotExceedCap) := by
  have hinv : CapNone (runCalls api initialState cs) :=
    capNone_run api cs initialState (by intro config m hti; exact absurd hti (by simp [initialState]))
  refine ⟨hinv, ?_⟩
  intro sender recipient amount
  exact mint_no_cap_error sender recipient amount _ hinv

/-- Witness for C10 on the concrete trace `csW`: the reachable metadata's
cap is `none` and a concrete mint does not hit the cap error. -/
theorem cap_always_none_witness :
    (MinterData.cap { minter := "creator", cap := none } = none) ∧
    (execute apiW "creator" (ExecuteMsg.mint "bob" 5)
      (runCalls apiW initialState csW)).1 ≠
      Outcome.err ContractError.cannotExceedCap :=
  ⟨(cap_always_none apiW csW).1
      { name := "Auto gen", symbol := "AUTO", decimals := 6, total_supply := 0,
        mint := some { minter := "creator", cap := none } }
      { minter := "creator", cap := none } (by rfl) (by rfl),
   (cap_always_none apiW csW).2 "creator" "bob" 5⟩

end Krzyzyk
